import Mathlib

/-!
Shallow embedding of the core of the dodo desktop switcher
(src/dodo/dodo.py): the desktop-switch state tracker
(`VirtualDesktopAccessor`), the per-monitor overlay batch
(`DesktopNumberOverlay` / `DesktopNumberOverlayManager`), and the window
move/pin operations.  OS facilities (pyvda queries, the switch/move/pin
primitives, monitor enumeration, the foreground window) are modelled as
explicit oracle records passed to each operation, so that every control
path of the Python code becomes a case of a total Lean function.
-/

/-- Geometry of one attached display, as produced by `Monitor.get_all`:
0-based `index` in enumeration order plus the rectangle. -/
structure Monitor where
  index : Nat
  left : Int
  top : Int
  width : Int
  height : Int
  deriving DecidableEq, Repr

/-- Observable attributes of one `DesktopNumberOverlay` window: the desktop
number it was built for, its screen position, and the text it renders. -/
structure DesktopNumberOverlay where
  desktop_number : Int
  x : Int
  y : Int
  text : String
  deriving DecidableEq, Repr

/-- The text an overlay renders: `"0" if desktop_number == 10 else
str(desktop_number)` (dodo.py line 89). -/
def overlay_text (desktop_number : Int) : String :=
  if desktop_number = 10 then "0" else toString desktop_number

/-- `DesktopNumberOverlay.__init__`: a shown overlay at position `(x, y)`
rendering `overlay_text desktop_number`. -/
def DesktopNumberOverlay.make (desktop_number x y : Int) : DesktopNumberOverlay :=
  { desktop_number := desktop_number, x := x, y := y,
    text := overlay_text desktop_number }

/-- The creation loop of `DesktopNumberOverlayManager.__init__` (dodo.py
lines 154-157).  `fails` tells, per monitor index, whether constructing that
monitor's overlay raises.  The loop body has no try/except, so a raise
aborts the whole loop: the result is the list of overlay windows actually
created (shown on screen) together with a flag telling whether the loop was
aborted by an exception. -/
def create_overlay_loop (desktop_number : Int) (fails : Nat → Bool) :
    List Monitor → List DesktopNumberOverlay × Bool
  | [] => ([], false)
  | m :: rest =>
    if fails m.index then ([], true)
    else
      let r := create_overlay_loop desktop_number fails rest
      (DesktopNumberOverlay.make desktop_number (m.left + 20) (m.top + 20) :: r.1, r.2)

/-- State of a `DesktopNumberOverlayManager` batch: its overlay list and its
single one-shot timer (interval in milliseconds, `none` when no timer was
started). -/
structure DesktopNumberOverlayManager where
  overlays : List DesktopNumberOverlay
  timer : Option Nat
  deriving DecidableEq, Repr

/-- `DesktopNumberOverlayManager.__init__` (dodo.py lines 146-163): run the
creation loop over the enumerated monitors; if it raised, no manager object
exists (`none`, the exception is caught by the caller); otherwise start the
1500 ms one-shot timer when at least one overlay was created. -/
def DesktopNumberOverlayManager.init (desktop_number : Int) (fails : Nat → Bool)
    (monitors : List Monitor) : Option DesktopNumberOverlayManager :=
  let r := create_overlay_loop desktop_number fails monitors
  if r.2 then none
  else some { overlays := r.1, timer := if r.1.isEmpty then none else some 1500 }

/-- `DesktopNumberOverlayManager.on_timer` (dodo.py lines 165-172): close
every overlay (each close is wrapped in try/except, so best-effort) and
clear the list. -/
def DesktopNumberOverlayManager.on_timer (st : DesktopNumberOverlayManager) :
    DesktopNumberOverlayManager :=
  { st with overlays := [] }

/-- Outcome of a switch operation, one per exit path of
`switch_desktop_by_number` / `switch_to_previous_desktop`. -/
inductive SwitchOutcome where
  | invalidDesktopNumber
  | alreadyOnDesktop
  | switched
  | switchFailed
  | noPreviousDesktop
  deriving DecidableEq, Repr

/-- Tracker state of `VirtualDesktopAccessor`: the cached current and
previous desktop numbers, plus whether a GUI frame was supplied (overlay
requests are emitted only when it was). -/
structure VirtualDesktopAccessor where
  current_desktop_number : Option Int
  previous_desktop_number : Option Int
  frame : Bool
  deriving DecidableEq, Repr

/-- OS behaviour during one switch call: the result of the live
`pyvda.VirtualDesktop.current()` query (`none` when it raises) and whether
`pyvda.VirtualDesktop(n).go()` succeeds. -/
structure SwitchEnv where
  os_current : Option Int
  go_ok : Bool
  deriving DecidableEq, Repr

/-- Result of one switch call: the tracker state afterwards, the outcome,
whether the OS switch primitive was invoked, and whether an overlay-display
request was emitted. -/
structure SwitchResult where
  vda : VirtualDesktopAccessor
  outcome : SwitchOutcome
  go_invoked : Bool
  overlay_requested : Bool
  deriving DecidableEq, Repr

/-- `VirtualDesktopAccessor.switch_desktop_by_number` (dodo.py lines
213-240).  Range check first; then the live current-desktop query, whose
value immediately overwrites the cached `current_desktop_number`; equal
numbers are the `AlreadyOnDesktop` no-op; otherwise `go()` is invoked and,
on success, `previous` is set to the live value just left, `current` to the
target, and an overlay request is emitted when a frame exists.  A raise
from `go()` is caught after the cache was already refreshed. -/
def switch_desktop_by_number (vda : VirtualDesktopAccessor) (env : SwitchEnv)
    (desktop_number : Int) : SwitchResult :=
  if desktop_number < 1 ∨ desktop_number > 10 then
    { vda := vda, outcome := .invalidDesktopNumber,
      go_invoked := false, overlay_requested := false }
  else
    match env.os_current with
    | none =>
      { vda := vda, outcome := .switchFailed,
        go_invoked := false, overlay_requested := false }
    | some current_number =>
      let vda1 := { vda with current_desktop_number := some current_number }
      if current_number = desktop_number then
        { vda := vda1, outcome := .alreadyOnDesktop,
          go_invoked := false, overlay_requested := false }
      else if env.go_ok then
        { vda := { vda1 with
                     previous_desktop_number := some current_number,
                     current_desktop_number := some desktop_number },
          outcome := .switched, go_invoked := true,
          overlay_requested := vda.frame }
      else
        { vda := vda1, outcome := .switchFailed,
          go_invoked := true, overlay_requested := false }

/-- `VirtualDesktopAccessor.switch_to_previous_desktop` (dodo.py lines
249-256): fail when no previous desktop is recorded, otherwise delegate to
`switch_desktop_by_number` on it. -/
def switch_to_previous_desktop (vda : VirtualDesktopAccessor) (env : SwitchEnv) :
    SwitchResult :=
  match vda.previous_desktop_number with
  | none =>
    { vda := vda, outcome := .noPreviousDesktop,
      go_invoked := false, overlay_requested := false }
  | some target => switch_desktop_by_number vda env target

/-- Outcome of a move operation, one per exit path of
`move_window_to_desktop`. -/
inductive MoveOutcome where
  | invalidDesktopNumber
  | noActiveWindow
  | moved
  | moveFailed
  deriving DecidableEq, Repr

/-- OS behaviour during one move call: the foreground window handle
(`none` when `GetForegroundWindow` reports none) and whether the move
primitive succeeds. -/
structure MoveEnv where
  foreground : Option Nat
  move_ok : Bool
  deriving DecidableEq, Repr

/-- Result of one move call: the tracker state afterwards, the outcome,
whether the OS move primitive was invoked, and whether an overlay-display
request was emitted. -/
structure MoveResult where
  vda : VirtualDesktopAccessor
  outcome : MoveOutcome
  move_invoked : Bool
  overlay_requested : Bool
  deriving DecidableEq, Repr

/-- `VirtualDesktopAccessor.move_window_to_desktop` (dodo.py lines
258-285): range check, foreground-window lookup, then the move primitive.
The method never assigns the tracker fields and never requests an
overlay. -/
def move_window_to_desktop (vda : VirtualDesktopAccessor) (env : MoveEnv)
    (desktop_number : Int) : MoveResult :=
  if desktop_number < 1 ∨ desktop_number > 10 then
    { vda := vda, outcome := .invalidDesktopNumber,
      move_invoked := false, overlay_requested := false }
  else
    match env.foreground with
    | none =>
      { vda := vda, outcome := .noActiveWindow,
        move_invoked := false, overlay_requested := false }
    | some _ =>
      if env.move_ok then
        { vda := vda, outcome := .moved,
          move_invoked := true, overlay_requested := false }
      else
        { vda := vda, outcome := .moveFailed,
          move_invoked := true, overlay_requested := false }

/-- Outcome of a pin operation, one per exit path of `pin_window`. -/
inductive PinOutcome where
  | noActiveWindow
  | pinned
  | alreadyPinned
  | pinFailed
  deriving DecidableEq, Repr

/-- OS state seen by one pin call: the foreground window handle, the
per-window pinned flag (`AppView.is_pinned`), and whether the pin primitive
succeeds when invoked. -/
structure PinEnv where
  foreground : Option Nat
  is_pinned : Nat → Bool
  pin_ok : Bool

/-- Result of one pin call: the OS state afterwards (pinning mutates the
per-window flag), the outcome, and how many times the pin primitive was
invoked during the call. -/
structure PinResult where
  env : PinEnv
  outcome : PinOutcome
  pin_invocations : Nat

/-- `VirtualDesktopAccessor.pin_window` (dodo.py lines 287-309): resolve
the foreground window; when it is already pinned, report so without
invoking the pin primitive; otherwise invoke it once. -/
def pin_window (env : PinEnv) : PinResult :=
  match env.foreground with
  | none => { env := env, outcome := .noActiveWindow, pin_invocations := 0 }
  | some hwnd =>
    if env.is_pinned hwnd then
      { env := env, outcome := .alreadyPinned, pin_invocations := 0 }
    else if env.pin_ok then
      { env := { env with is_pinned := fun h => if h = hwnd then true else env.is_pinned h },
        outcome := .pinned, pin_invocations := 1 }
    else
      { env := env, outcome := .pinFailed, pin_invocations := 1 }

/-- The creation loop characterised: exactly the monitors strictly before
the first failing one get overlays, and the loop aborts exactly when some
enumerated monitor fails. -/
theorem create_overlay_loop_spec (desktop_number : Int) (fails : Nat → Bool)
    (monitors : List Monitor) :
    create_overlay_loop desktop_number fails monitors =
      ((monitors.takeWhile (fun m => !fails m.index)).map
          (fun m => DesktopNumberOverlay.make desktop_number (m.left + 20) (m.top + 20)),
        monitors.any (fun m => fails m.index)) := by
  induction monitors with
  | nil => rfl
  | cons m rest ih =>
    by_cases h : fails m.index
    · simp [create_overlay_loop, List.takeWhile, h]
    · simp only [Bool.not_eq_true] at h
      simp [create_overlay_loop, List.takeWhile, h, ih]

/-- C7: with no previous desktop recorded, `switch_to_previous_desktop`
fails with `NoPreviousDesktop`, invokes nothing and changes nothing. -/
theorem switch_to_previous_no_previous
    (vda : VirtualDesktopAccessor) (env : SwitchEnv)
    (h : vda.previous_desktop_number = none) :
    switch_to_previous_desktop vda env =
      { vda := vda, outcome := .noPreviousDesktop,
        go_invoked := false, overlay_requested := false } := by
  simp [switch_to_previous_desktop, h]

/-- Witness for C7's theorem at a concrete freshly initialised tracker. -/
theorem switch_to_previous_no_previous_witness :
    switch_to_previous_desktop
        { current_desktop_number := some 3, previous_desktop_number := none,
          frame := true }
        { os_current := some 3, go_ok := true } =
      { vda := { current_desktop_number := some 3,
                 previous_desktop_number := none, frame := true },
        outcome := .noPreviousDesktop,
        go_invoked := false, overlay_requested := false } :=
  switch_to_previous_no_previous _ _ rfl

/-- C6: for any desktop number outside [1, 10], both the switch and the
move operation fail with `InvalidDesktopNumber`, leave the tracker
unchanged, and consult no OS primitive (the result is the same whatever
the OS would have answered). -/
theorem invalid_desktop_number_rejected
    (vda : VirtualDesktopAccessor) (senv senv2 : SwitchEnv)
    (menv menv2 : MoveEnv) (n : Int)
    (hn : n < 1 ∨ n > 10) :
    switch_desktop_by_number vda senv n =
      { vda := vda, outcome := .invalidDesktopNumber,
        go_invoked := false, overlay_requested := false } ∧
    switch_desktop_by_number vda senv n = switch_desktop_by_number vda senv2 n ∧
    move_window_to_desktop vda menv n =
      { vda := vda, outcome := .invalidDesktopNumber,
        move_invoked := false, overlay_requested := false } ∧
    move_window_to_desktop vda menv n = move_window_to_desktop vda menv2 n := by
  refine ⟨?_, ?_, ?_, ?_⟩ <;>
    simp [switch_desktop_by_number, move_window_to_desktop, hn]

/-- Witness for C6's theorem at n = 11. -/
theorem invalid_desktop_number_rejected_witness :
    switch_desktop_by_number
        { current_desktop_number := some 2, previous_desktop_number := some 1,
          frame := true }
        { os_current := some 2, go_ok := true } 11 =
      { vda := { current_desktop_number := some 2,
                 previous_desktop_number := some 1, frame := true },
        outcome := .invalidDesktopNumber,
        go_invoked := false, overlay_requested := false } ∧
    switch_desktop_by_number
        { current_desktop_number := some 2, previous_desktop_number := some 1,
          frame := true }
        { os_current := some 2, go_ok := true } 11 =
      switch_desktop_by_number
        { current_desktop_number := some 2, previous_desktop_number := some 1,
          frame := true }
        { os_current := none, go_ok := false } 11 ∧
    move_window_to_desktop
        { current_desktop_number := some 2, previous_desktop_number := some 1,
          frame := true }
        { foreground := some 7, move_ok := true } 11 =
      { vda := { current_desktop_number := some 2,
                 previous_desktop_number := some 1, frame := true },
        outcome := .invalidDesktopNumber,
        move_invoked := false, overlay_requested := false } ∧
    move_window_to_desktop
        { current_desktop_number := some 2, previous_desktop_number := some 1,
          frame := true }
        { foreground := some 7, move_ok := true } 11 =
      move_window_to_desktop
        { current_desktop_number := some 2, previous_desktop_number := some 1,
          frame := true }
        { foreground := none, move_ok := false } 11 :=
  invalid_desktop_number_rejected _ _ _ _ _ 11 (by decide)

/-- C1: from OS-reported desktop m, a successful switch to a distinct
desktop n sets previous = m and current = n; the subsequent
`switch_to_previous_desktop` delegates to the switch on m, succeeds, and
swaps the two fields, so two consecutive previous-invocations toggle
between exactly two desktops. -/
theorem switch_then_previous_toggles
    (vda : VirtualDesktopAccessor) (env1 env2 : SwitchEnv) (m n : Int)
    (hm1 : 1 ≤ m) (hm10 : m ≤ 10) (hn1 : 1 ≤ n) (hn10 : n ≤ 10) (hmn : m ≠ n)
    (hc1 : env1.os_current = some m) (hg1 : env1.go_ok = true)
    (hc2 : env2.os_current = some n) (hg2 : env2.go_ok = true) :
    (switch_desktop_by_number vda env1 n).outcome = .switched ∧
    (switch_desktop_by_number vda env1 n).vda.previous_desktop_number = some m ∧
    (switch_desktop_by_number vda env1 n).vda.current_desktop_number = some n ∧
    switch_to_previous_desktop (switch_desktop_by_number vda env1 n).vda env2 =
      switch_desktop_by_number (switch_desktop_by_number vda env1 n).vda env2 m ∧
    (switch_to_previous_desktop (switch_desktop_by_number vda env1 n).vda env2).outcome
      = .switched ∧
    (switch_to_previous_desktop (switch_desktop_by_number vda env1 n).vda env2).vda.previous_desktop_number
      = some n ∧
    (switch_to_previous_desktop (switch_desktop_by_number vda env1 n).vda env2).vda.current_desktop_number
      = some m := by
  have hrange : ¬(n < 1 ∨ n > 10) := by omega
  have hrange2 : ¬(m < 1 ∨ m > 10) := by omega
  have hr1 : switch_desktop_by_number vda env1 n =
      { vda := { current_desktop_number := some n,
                 previous_desktop_number := some m, frame := vda.frame },
        outcome := .switched, go_invoked := true,
        overlay_requested := vda.frame } := by
    simp [switch_desktop_by_number, hrange, hc1, hg1, hmn]
  rw [hr1]
  have hnm : ¬(n = m) := fun h => hmn h.symm
  simp [switch_to_previous_desktop, switch_desktop_by_number, hrange2, hc2,
    hg2, hnm]

/-- Witness for C1's theorem: from desktop 3, switch to 5 then back. -/
theorem switch_then_previous_toggles_witness :
    (switch_desktop_by_number
        { current_desktop_number := some 3, previous_desktop_number := none,
          frame := true }
        { os_current := some 3, go_ok := true } 5).outcome = .switched ∧
    (switch_desktop_by_number
        { current_desktop_number := some 3, previous_desktop_number := none,
          frame := true }
        { os_current := some 3, go_ok := true } 5).vda.previous_desktop_number = some 3 ∧
    (switch_desktop_by_number
        { current_desktop_number := some 3, previous_desktop_number := none,
          frame := true }
        { os_current := some 3, go_ok := true } 5).vda.current_desktop_number = some 5 ∧
    switch_to_previous_desktop
        (switch_desktop_by_number
          { current_desktop_number := some 3, previous_desktop_number := none,
            frame := true }
          { os_current := some 3, go_ok := true } 5).vda
        { os_current := some 5, go_ok := true } =
      switch_desktop_by_number
        (switch_desktop_by_number
          { current_desktop_number := some 3, previous_desktop_number := none,
            frame := true }
          { os_current := some 3, go_ok := true } 5).vda
        { os_current := some 5, go_ok := true } 3 ∧
    (switch_to_previous_desktop
        (switch_desktop_by_number
          { current_desktop_number := some 3, previous_desktop_number := none,
            frame := true }
          { os_current := some 3, go_ok := true } 5).vda
        { os_current := some 5, go_ok := true }).outcome = .switched ∧
    (switch_to_previous_desktop
        (switch_desktop_by_number
          { current_desktop_number := some 3, previous_desktop_number := none,
            frame := true }
          { os_current := some 3, go_ok := true } 5).vda
        { os_current := some 5, go_ok := true }).vda.previous_desktop_number = some 5 ∧
    (switch_to_previous_desktop
        (switch_desktop_by_number
          { current_desktop_number := some 3, previous_desktop_number := none,
            frame := true }
          { os_current := some 3, go_ok := true } 5).vda
        { os_current := some 5, go_ok := true }).vda.current_desktop_number = some 3 :=
  switch_then_previous_toggles _ _ _ 3 5 (by decide) (by decide) (by decide)
    (by decide) (by decide) rfl rfl rfl rfl

/-- C2 counterexample: with cached current desktop 3 but live OS desktop 4,
a switch to 5 whose `go()` raises ends with `SwitchFailed`, yet the cached
`current_desktop_number` has changed from `some 3` to `some 4` — the
tracker fields are not all left unchanged from their pre-call values. -/
theorem switch_failed_changes_current_counterexample :
    (switch_desktop_by_number
        { current_desktop_number := some 3, previous_desktop_number := some 7,
          frame := true }
        { os_current := some 4, go_ok := false } 5).outcome = .switchFailed ∧
    (switch_desktop_by_number
        { current_desktop_number := some 3, previous_desktop_number := some 7,
          frame := true }
        { os_current := some 4, go_ok := false } 5).vda.current_desktop_number =
      some 4 ∧
    ¬ (switch_desktop_by_number
        { current_desktop_number := some 3, previous_desktop_number := some 7,
          frame := true }
        { os_current := some 4, go_ok := false } 5).vda.current_desktop_number =
      some 3 := by
  refine ⟨rfl, rfl, ?_⟩
  decide

/-- C2 amended: when the live query answers c ≠ n and `go()` fails, the
call fails with `SwitchFailed`, `previous_desktop_number` is left
unchanged, no overlay is requested, and `current_desktop_number` is
refreshed to the live value c (which may differ from its pre-call cached
value). -/
theorem switch_failed_preserves_previous
    (vda : VirtualDesktopAccessor) (env : SwitchEnv) (n c : Int)
    (hn1 : 1 ≤ n) (hn10 : n ≤ 10)
    (hc : env.os_current = some c) (hcn : c ≠ n) (hg : env.go_ok = false) :
    switch_desktop_by_number vda env n =
      { vda := { vda with current_desktop_number := some c },
        outcome := .switchFailed, go_invoked := true,
        overlay_requested := false } := by
  have hrange : ¬(n < 1 ∨ n > 10) := by omega
  simp [switch_desktop_by_number, hrange, hc, hcn, hg]

/-- Witness for C2's amended theorem at the counterexample's input. -/
theorem switch_failed_preserves_previous_witness :
    switch_desktop_by_number
        { current_desktop_number := some 3, previous_desktop_number := some 7,
          frame := true }
        { os_current := some 4, go_ok := false } 5 =
      { vda := { current_desktop_number := some 4,
                 previous_desktop_number := some 7, frame := true },
        outcome := .switchFailed, go_invoked := true,
        overlay_requested := false } :=
  switch_failed_preserves_previous _ _ 5 4 (by decide) (by decide) rfl
    (by decide) rfl

/-- C4: when the live OS query answers the target desktop itself, the
switch is the `AlreadyOnDesktop` no-op: previous is untouched, the switch
primitive is not invoked, no overlay is requested, and a repeated call
under the same OS answer returns the very same state, so such calls are
idempotent. -/
theorem switch_already_on_desktop_idempotent
    (vda : VirtualDesktopAccessor) (env env2 : SwitchEnv) (n : Int)
    (hn1 : 1 ≤ n) (hn10 : n ≤ 10)
    (hc : env.os_current = some n) (hc2 : env2.os_current = some n) :
    (switch_desktop_by_number vda env n).outcome = .alreadyOnDesktop ∧
    (switch_desktop_by_number vda env n).vda.previous_desktop_number =
      vda.previous_desktop_number ∧
    (switch_desktop_by_number vda env n).go_invoked = false ∧
    (switch_desktop_by_number vda env n).overlay_requested = false ∧
    switch_desktop_by_number (switch_desktop_by_number vda env n).vda env2 n =
      { vda := (switch_desktop_by_number vda env n).vda,
        outcome := .alreadyOnDesktop,
        go_invoked := false, overlay_requested := false } := by
  have hrange : ¬(n < 1 ∨ n > 10) := by omega
  have hr : switch_desktop_by_number vda env n =
      { vda := { vda with current_desktop_number := some n },
        outcome := .alreadyOnDesktop,
        go_invoked := false, overlay_requested := false } := by
    simp [switch_desktop_by_number, hrange, hc]
  rw [hr]
  refine ⟨rfl, rfl, rfl, rfl, ?_⟩
  simp [switch_desktop_by_number, hrange, hc2]

/-- Witness for C4's theorem: already on desktop 4, switch to 4 twice. -/
theorem switch_already_on_desktop_idempotent_witness :
    (switch_desktop_by_number
        { current_desktop_number := some 4, previous_desktop_number := some 9,
          frame := true }
        { os_current := some 4, go_ok := true } 4).outcome = .alreadyOnDesktop ∧
    (switch_desktop_by_number
        { current_desktop_number := some 4, previous_desktop_number := some 9,
          frame := true }
        { os_current := some 4, go_ok := true } 4).vda.previous_desktop_number =
      some 9 ∧
    (switch_desktop_by_number
        { current_desktop_number := some 4, previous_desktop_number := some 9,
          frame := true }
        { os_current := some 4, go_ok := true } 4).go_invoked = false ∧
    (switch_desktop_by_number
        { current_desktop_number := some 4, previous_desktop_number := some 9,
          frame := true }
        { os_current := some 4, go_ok := true } 4).overlay_requested = false ∧
    switch_desktop_by_number
        (switch_desktop_by_number
          { current_desktop_number := some 4, previous_desktop_number := some 9,
            frame := true }
          { os_current := some 4, go_ok := true } 4).vda
        { os_current := some 4, go_ok := true } 4 =
      { vda := (switch_desktop_by_number
          { current_desktop_number := some 4, previous_desktop_number := some 9,
            frame := true }
          { os_current := some 4, go_ok := true } 4).vda,
        outcome := .alreadyOnDesktop,
        go_invoked := false, overlay_requested := false } :=
  switch_already_on_desktop_idempotent _ _ _ 4 (by decide) (by decide) rfl rfl

/-- C10: whenever the live current-desktop query succeeds with value c
during a switch to an in-range n, the cached `current_desktop_number` is
overwritten with c before the outcome is decided: on the no-op path and on
the failed-switch path it ends as `some c` with `previous` untouched, and
on the successful path it ends as the target `some n`. -/
theorem switch_refreshes_cached_current
    (vda : VirtualDesktopAccessor) (env : SwitchEnv) (n c : Int)
    (hn1 : 1 ≤ n) (hn10 : n ≤ 10) (hc : env.os_current = some c) :
    (c = n →
      (switch_desktop_by_number vda env n).vda.current_desktop_number = some c ∧
      (switch_desktop_by_number vda env n).vda.previous_desktop_number =
        vda.previous_desktop_number ∧
      (switch_desktop_by_number vda env n).outcome = .alreadyOnDesktop) ∧
    (c ≠ n → env.go_ok = false →
      (switch_desktop_by_number vda env n).vda.current_desktop_number = some c ∧
      (switch_desktop_by_number vda env n).vda.previous_desktop_number =
        vda.previous_desktop_number ∧
      (switch_desktop_by_number vda env n).outcome = .switchFailed) ∧
    (c ≠ n → env.go_ok = true →
      (switch_desktop_by_number vda env n).vda.current_desktop_number = some n) := by
  have hrange : ¬(n < 1 ∨ n > 10) := by omega
  refine ⟨?_, ?_, ?_⟩
  · intro hcn
    simp [switch_desktop_by_number, hrange, hc, hcn]
  · intro hcn hg
    simp [switch_desktop_by_number, hrange, hc, hcn, hg]
  · intro hcn hg
    simp [switch_desktop_by_number, hrange, hc, hcn, hg]

/-- Witness for C10's theorem: live desktop 4 during a switch to 5 with a
failing switch primitive. -/
theorem switch_refreshes_cached_current_witness :
    ((4 : Int) = 5 →
      (switch_desktop_by_number
          { current_desktop_number := some 3, previous_desktop_number := none,
            frame := false }
          { os_current := some 4, go_ok := false } 5).vda.current_desktop_number =
        some 4 ∧
      (switch_desktop_by_number
          { current_desktop_number := some 3, previous_desktop_number := none,
            frame := false }
          { os_current := some 4, go_ok := false } 5).vda.previous_desktop_number =
        none ∧
      (switch_desktop_by_number
          { current_desktop_number := some 3, previous_desktop_number := none,
            frame := false }
          { os_current := some 4, go_ok := false } 5).outcome = .alreadyOnDesktop) ∧
    ((4 : Int) ≠ 5 →
      ({ os_current := some 4, go_ok := false } : SwitchEnv).go_ok = false →
      (switch_desktop_by_number
          { current_desktop_number := some 3, previous_desktop_number := none,
            frame := false }
          { os_current := some 4, go_ok := false } 5).vda.current_desktop_number =
        some 4 ∧
      (switch_desktop_by_number
          { current_desktop_number := some 3, previous_desktop_number := none,
            frame := false }
          { os_current := some 4, go_ok := false } 5).vda.previous_desktop_number =
        none ∧
      (switch_desktop_by_number
          { current_desktop_number := some 3, previous_desktop_number := none,
            frame := false }
          { os_current := some 4, go_ok := false } 5).outcome = .switchFailed) ∧
    ((4 : Int) ≠ 5 →
      ({ os_current := some 4, go_ok := false } : SwitchEnv).go_ok = true →
      (switch_desktop_by_number
          { current_desktop_number := some 3, previous_desktop_number := none,
            frame := false }
          { os_current := some 4, go_ok := false } 5).vda.current_desktop_number =
        some 5) :=
  switch_refreshes_cached_current _ _ 5 4 (by decide) (by decide) rfl

/-- The creation loop with no failing monitor: one overlay per monitor, in
enumeration order, and no abort. -/
theorem create_overlay_loop_no_failure (n : Int) (monitors : List Monitor) :
    create_overlay_loop n (fun _ => false) monitors =
      (monitors.map
        (fun m => DesktopNumberOverlay.make n (m.left + 20) (m.top + 20)),
       false) := by
  induction monitors with
  | nil => rfl
  | cons m rest ih => simp [create_overlay_loop, ih]

/-- C3 counterexample: two monitors are enumerated and only the first
(index 0) fails, yet the batch creates no overlay at all — in particular
the second monitor, which does not fail, gets no overlay, so one failing
monitor does prevent creation on a remaining monitor. -/
theorem overlay_failure_blocks_remaining_counterexample :
    (create_overlay_loop 7 (fun i => i == 0)
        [{ index := 0, left := 0, top := 0, width := 1920, height := 1080 },
         { index := 1, left := 1920, top := 0, width := 1920, height := 1080 }]).1
      = [] ∧
    (create_overlay_loop 7 (fun i => i == 0)
        [{ index := 0, left := 0, top := 0, width := 1920, height := 1080 },
         { index := 1, left := 1920, top := 0, width := 1920, height := 1080 }]).2
      = true := by
  exact ⟨rfl, rfl⟩

/-- C3 amended: a failure creating one monitor's overlay aborts the batch
at that point — overlays are created exactly for the monitors strictly
before the first failing one, none for the failing monitor or any monitor
after it, and the constructor raises (caught by the caller) exactly when
some enumerated monitor fails. -/
theorem overlay_creation_aborts_at_first_failure
    (desktop_number : Int) (fails : Nat → Bool) (monitors : List Monitor) :
    (create_overlay_loop desktop_number fails monitors).1 =
      (monitors.takeWhile (fun m => !fails m.index)).map
        (fun m => DesktopNumberOverlay.make desktop_number (m.left + 20) (m.top + 20)) ∧
    (create_overlay_loop desktop_number fails monitors).2 =
      monitors.any (fun m => fails m.index) := by
  rw [create_overlay_loop_spec]
  exact ⟨rfl, rfl⟩

/-- C5: a batch for desktop number n in which no overlay creation fails
holds exactly one overlay per enumerated monitor, in enumeration order,
each at its monitor's top-left corner plus the fixed 20-pixel inset and
each rendering "0" when n = 10 and the decimal digits of n otherwise; after
the batch's one-shot timer fires, zero overlays remain. -/
theorem display_creates_one_overlay_per_monitor
    (n : Int) (monitors : List Monitor) (st : DesktopNumberOverlayManager)
    (h : DesktopNumberOverlayManager.init n (fun _ => false) monitors = some st) :
    st.overlays = monitors.map
        (fun m => DesktopNumberOverlay.make n (m.left + 20) (m.top + 20)) ∧
    st.overlays.length = monitors.length ∧
    (∀ m, m ∈ monitors →
        DesktopNumberOverlay.make n (m.left + 20) (m.top + 20) =
          { desktop_number := n, x := m.left + 20, y := m.top + 20,
            text := if n = 10 then "0" else toString n }) ∧
    st.on_timer.overlays = [] := by
  unfold DesktopNumberOverlayManager.init at h
  rw [create_overlay_loop_no_failure] at h
  simp only [Bool.false_eq_true, if_false] at h
  have hst : st =
      { overlays := monitors.map
          (fun m => DesktopNumberOverlay.make n (m.left + 20) (m.top + 20)),
        timer := if (monitors.map
            (fun m => DesktopNumberOverlay.make n (m.left + 20) (m.top + 20))).isEmpty
          then none else some 1500 } := by
    injection h with h
    exact h.symm
  subst hst
  refine ⟨rfl, by simp, fun m _ => rfl, rfl⟩

/-- Witness for C5's theorem: desktop 7 over two concrete monitors. -/
theorem display_creates_one_overlay_per_monitor_witness :
    DesktopNumberOverlayManager.init 7 (fun _ => false)
        [{ index := 0, left := 0, top := 0, width := 1920, height := 1080 },
         { index := 1, left := 1920, top := 0, width := 1920, height := 1080 }] =
      some { overlays :=
               [{ desktop_number := 7, x := 20, y := 20, text := "7" },
                { desktop_number := 7, x := 1940, y := 20, text := "7" }],
             timer := some 1500 } ∧
    ({ overlays :=
         [{ desktop_number := 7, x := 20, y := 20, text := "7" },
          { desktop_number := 7, x := 1940, y := 20, text := "7" }],
       timer := some 1500 } : DesktopNumberOverlayManager).overlays.length =
      ([{ index := 0, left := 0, top := 0, width := 1920, height := 1080 },
        { index := 1, left := 1920, top := 0, width := 1920, height := 1080 }] :
          List Monitor).length ∧
    ({ overlays :=
         [{ desktop_number := 7, x := 20, y := 20, text := "7" },
          { desktop_number := 7, x := 1940, y := 20, text := "7" }],
       timer := some 1500 } : DesktopNumberOverlayManager).on_timer.overlays = [] :=
  ⟨rfl,
   (display_creates_one_overlay_per_monitor 7
      [{ index := 0, left := 0, top := 0, width := 1920, height := 1080 },
       { index := 1, left := 1920, top := 0, width := 1920, height := 1080 }]
      { overlays :=
          [{ desktop_number := 7, x := 20, y := 20, text := "7" },
           { desktop_number := 7, x := 1940, y := 20, text := "7" }],
        timer := some 1500 } rfl).2.1,
   (display_creates_one_overlay_per_monitor 7
      [{ index := 0, left := 0, top := 0, width := 1920, height := 1080 },
       { index := 1, left := 1920, top := 0, width := 1920, height := 1080 }]
      { overlays :=
          [{ desktop_number := 7, x := 20, y := 20, text := "7" },
           { desktop_number := 7, x := 1940, y := 20, text := "7" }],
        timer := some 1500 } rfl).2.2.2⟩

/-- C8 counterexample: the foreground window exists but is already pinned,
and then the first of two consecutive pin calls returns `AlreadyPinned`,
not `Pinned` as the claim demands. -/
theorem pin_first_call_already_pinned_counterexample :
    ({ foreground := some 1, is_pinned := fun _ => true, pin_ok := true } :
        PinEnv).foreground = some 1 ∧
    (pin_window
        { foreground := some 1, is_pinned := fun _ => true, pin_ok := true }).outcome
      = .alreadyPinned ∧
    (pin_window
        { foreground := some 1, is_pinned := fun _ => true, pin_ok := true }).outcome
      ≠ .pinned := by
  refine ⟨rfl, rfl, ?_⟩
  intro hcontra
  exact absurd (rfl.symm.trans hcontra) (by decide)

/-- C8 amended: when the foreground window exists and is not already
pinned (and the pin primitive does not itself fail), two consecutive pin
calls return `Pinned` then `AlreadyPinned`, and across the two calls the
pin primitive is invoked exactly once — in particular at most once, the
second call never re-invoking it. -/
theorem pin_twice_invokes_primitive_once
    (env : PinEnv) (hwnd : Nat)
    (hf : env.foreground = some hwnd) (hp : env.is_pinned hwnd = false)
    (hok : env.pin_ok = true) :
    (pin_window env).outcome = .pinned ∧
    (pin_window (pin_window env).env).outcome = .alreadyPinned ∧
    (pin_window env).pin_invocations +
      (pin_window (pin_window env).env).pin_invocations = 1 := by
  have h1 : pin_window env =
      { env := { env with
                   is_pinned := fun h => if h = hwnd then true else env.is_pinned h },
        outcome := .pinned, pin_invocations := 1 } := by
    simp [pin_window, hf, hp, hok]
  rw [h1]
  simp [pin_window, hf]

/-- Witness for C8's amended theorem at a concrete unpinned window. -/
theorem pin_twice_invokes_primitive_once_witness :
    (pin_window
        { foreground := some 1, is_pinned := fun _ => false, pin_ok := true }).outcome
      = .pinned ∧
    (pin_window
        (pin_window
          { foreground := some 1, is_pinned := fun _ => false,
            pin_ok := true }).env).outcome = .alreadyPinned ∧
    (pin_window
        { foreground := some 1, is_pinned := fun _ => false,
          pin_ok := true }).pin_invocations +
      (pin_window
        (pin_window
          { foreground := some 1, is_pinned := fun _ => false,
            pin_ok := true }).env).pin_invocations = 1 :=
  pin_twice_invokes_primitive_once _ 1 rfl rfl rfl

/-- C9: for in-range n, a move-window call leaves the whole tracker state
(current, previous, frame) exactly as it was and never requests an
overlay, whatever the OS reports about the foreground window or the move
primitive. -/
theorem move_window_preserves_tracker
    (vda : VirtualDesktopAccessor) (env : MoveEnv) (n : Int)
    (hn1 : 1 ≤ n) (hn10 : n ≤ 10) :
    (move_window_to_desktop vda env n).vda = vda ∧
    (move_window_to_desktop vda env n).overlay_requested = false := by
  obtain ⟨fg, mok⟩ := env
  unfold move_window_to_desktop
  cases fg <;> cases mok <;> split <;> exact ⟨rfl, rfl⟩

/-- Witness for C9's theorem: a concrete failed move to desktop 5. -/
theorem move_window_preserves_tracker_witness :
    (move_window_to_desktop
        { current_desktop_number := some 2, previous_desktop_number := some 8,
          frame := true }
        { foreground := some 42, move_ok := false } 5).vda =
      { current_desktop_number := some 2, previous_desktop_number := some 8,
        frame := true } ∧
    (move_window_to_desktop
        { current_desktop_number := some 2, previous_desktop_number := some 8,
          frame := true }
        { foreground := some 42, move_ok := false } 5).overlay_requested = false :=
  move_window_preserves_tracker _ _ 5 (by decide) (by decide)
